import Mathlib

/-
Shallow embedding of src/editor.c (a terminal text-editor skeleton).

Bytes read from the terminal are modelled as `Int` (C `char` values; all
inputs of interest are ASCII).  A single `read(fd, &c, 1)` call is modelled
as consuming one element of a `List (Option Int)`: `some b` means the call
returned one byte `b`, `none` means the call returned no byte within the
VTIME timeout.  C `int` fields are modelled as `Int`; the screen dimensions
are nonnegative in every reachable state (they come from `ws_row`/`ws_col`,
which are unsigned), so iteration counts use `Int.toNat`.
-/

/-- Key-code constants from `enum editorKey` (src/editor.c lines 16-23). -/
def MOVE_LEFT : Int := 1000

/-- Key code for rightward movement (src/editor.c line 18). -/
def MOVE_RIGHT : Int := 1001

/-- Key code for upward movement (src/editor.c line 19). -/
def MOVE_UP : Int := 1002

/-- Key code for downward movement (src/editor.c line 20). -/
def MOVE_DOWN : Int := 1003

/-- Key code for page-up (src/editor.c line 21). -/
def PAGE_UP : Int := 1004

/-- Key code for page-down (src/editor.c line 22). -/
def PAGE_DOWN : Int := 1005

/-- The `CTRL_KEY(k)` macro: `(k) & 0x1f` (src/editor.c line 12). -/
def CTRL_KEY (k : Int) : Int := Int.land k 0x1f

/-- The editor state `struct editorConfig` (src/editor.c lines 28-34).
`orig_termios` is an opaque snapshot of the original terminal attributes. -/
structure editorConfig where
  cx : Int
  cy : Int
  screenrows : Int
  screencols : Int
  orig_termios : Nat
deriving DecidableEq

/-- The append buffer `struct abuf` (src/editor.c lines 37-40): a byte
sequence plus its tracked length. -/
structure abuf where
  b : List Char
  len : Nat
deriving DecidableEq

/-- `ABUF_INIT` (src/editor.c lines 42-43). -/
def ABUF_INIT : abuf := ⟨[], 0⟩

/-- `abAppend` (src/editor.c lines 49-62).  `allocOk` models whether the
`realloc` call succeeds; on failure the function returns with the buffer
untouched (`if (new == NULL) return;`).  Every call site passes the exact
length of the appended string, so the `len` argument is `s.length`. -/
def abAppend (allocOk : Bool) (ab : abuf) (s : List Char) : abuf :=
  if allocOk then ⟨ab.b ++ s, ab.len + s.length⟩ else ab

/-- `editorMoveCursor` (src/editor.c lines 213-240).  Note: the MOVE_DOWN
case compares `E.cy` against `E.screencols - 1` (line 235), exactly as in
the source. -/
def editorMoveCursor (key : Int) (E : editorConfig) : editorConfig :=
  if key = MOVE_LEFT then
    if E.cx ≠ 0 then { E with cx := E.cx - 1 } else E
  else if key = MOVE_RIGHT then
    if E.cx ≠ E.screencols - 1 then { E with cx := E.cx + 1 } else E
  else if key = MOVE_UP then
    if E.cy ≠ 0 then { E with cy := E.cy - 1 } else E
  else if key = MOVE_DOWN then
    if E.cy ≠ E.screencols - 1 then { E with cy := E.cy + 1 } else E
  else E

/-- The `while (times--) editorMoveCursor(...)` loop of
`editorProcessKeyPress` (src/editor.c lines 255-258), with the iteration
count made explicit. -/
def repeatMoveCursor (key : Int) : Nat → editorConfig → editorConfig
  | 0, E => E
  | Nat.succ n, E => repeatMoveCursor key n (editorMoveCursor key E)

/-- `editorProcessKeyPress` (src/editor.c lines 242-267), taking the
already-decoded key as an argument.  The result is the new editor state,
the bytes the dispatch itself writes to stdout, and `some code` when the
process exits with status `code`.  `CTRL_KEY('q')` is `CTRL_KEY 113 = 17`. -/
def editorProcessKeyPress (E : editorConfig) (c : Int) : editorConfig × List Char × Option Nat :=
  if c = CTRL_KEY 113 then
    (E, "\x1b[2J".data ++ "\x1b[H".data, some 0)
  else if c = PAGE_UP ∨ c = PAGE_DOWN then
    (repeatMoveCursor (if c = PAGE_UP then MOVE_UP else MOVE_DOWN) E.screenrows.toNat E, [], none)
  else if c = MOVE_UP ∨ c = MOVE_DOWN ∨ c = MOVE_LEFT ∨ c = MOVE_RIGHT then
    (editorMoveCursor c E, [], none)
  else
    (E, [], none)

/-- The retry loop `while ((nread = read(...)) != 1)` of `editorReadKey`
(src/editor.c lines 142-146): timeouts (`none`) are retried until a byte
arrives; if the stream ends the loop would block forever, modelled as
`none`. -/
def skipTimeouts : List (Option Int) → Option (Int × List (Option Int))
  | [] => none
  | none :: rest => skipTimeouts rest
  | some c :: rest => some (c, rest)

/-- A single `read(STDIN_FILENO, &seq[i], 1)` call: the next read outcome
and the remaining stream.  An exhausted stream reads as a timeout. -/
def read1 : List (Option Int) → Option Int × List (Option Int)
  | [] => (none, [])
  | x :: rest => (x, rest)

/-- `editorReadKey` (src/editor.c lines 134-189) over a stream of read
outcomes.  Returns the decoded key together with the number of bytes
consumed, or `none` if no first byte ever arrives.  `27 = 0x1b` (ESC),
`91 = char [`, digits are `48`-`57`, `126 = char tilde`, and
`65/66/67/68` are `A/B/C/D`. -/
def editorReadKey (input : List (Option Int)) : Option (Int × Nat) :=
  match skipTimeouts input with
  | none => none
  | some (c, rest) =>
    if c = 27 then
      match read1 rest with
      | (none, _) => some (27, 1)
      | (some s0, rest1) =>
        match read1 rest1 with
        | (none, _) => some (27, 2)
        | (some s1, rest2) =>
          if s0 = 91 then
            if 48 ≤ s1 ∧ s1 ≤ 57 then
              match read1 rest2 with
              | (none, _) => some (27, 3)
              | (some s2, _) =>
                if s2 = 126 then
                  if s1 = 53 then some (PAGE_UP, 4)
                  else if s1 = 54 then some (PAGE_DOWN, 4)
                  else some (27, 4)
                else some (27, 4)
            else
              if s1 = 65 then some (MOVE_UP, 3)
              else if s1 = 66 then some (MOVE_DOWN, 3)
              else if s1 = 67 then some (MOVE_RIGHT, 3)
              else if s1 = 68 then some (MOVE_LEFT, 3)
              else some (27, 3)
          else some (27, 3)
    else some (c, 1)

/-- The banner text produced by `snprintf(welcome, sizeof(welcome),
"txt editor --- version %s", TXT_VERSION)` (src/editor.c lines 279-281):
28 characters, well under the 80-byte buffer. -/
def welcomeMessage : List Char := "txt editor --- version 0.0.1".data

/-- The banner-row bytes of `editorDrawRows` (src/editor.c lines 282-295),
parameterised by the column count and the banner text: clamp the banner
length to the width, compute `padding = (cols - welcomelen) / 2`, and when
the padding is nonzero emit one placeholder marker followed by
`padding - 1` spaces, then the (possibly truncated) banner.  Both operands
of the division are nonnegative C ints, so `Nat` arithmetic is exact. -/
def editorBannerRow (cols : Nat) (welcome : List Char) : List Char :=
  let welcomelen := if welcome.length > cols then cols else welcome.length
  let padding := (cols - welcomelen) / 2
  (if padding ≠ 0 then '~' :: List.replicate (padding - 1) ' ' else []) ++
    welcome.take welcomelen

/-- One iteration of the row loop of `editorDrawRows`
(src/editor.c lines 277-304) for row index `y`. -/
def editorDrawRow (E : editorConfig) (ab : abuf) (y : Nat) : abuf :=
  let ab1 :=
    if (y : Int) = Int.tdiv E.screenrows 3 then
      abAppend true ab (editorBannerRow E.screencols.toNat welcomeMessage)
    else
      abAppend true ab "~".data
  let ab2 := abAppend true ab1 "\x1b[K".data
  if (y : Int) < E.screenrows - 1 then abAppend true ab2 "\r\n".data else ab2

/-- `editorDrawRows` (src/editor.c lines 271-305): the loop
`for (y = 0; y < E.screenrows; y++)`. -/
def editorDrawRows (E : editorConfig) (ab : abuf) : abuf :=
  (List.range E.screenrows.toNat).foldl (editorDrawRow E) ab

/-- The cursor-positioning escape built by
`snprintf(buf, sizeof(buf), "\x1b[%d;%dH", E.cy + 1, E.cx + 1)`
(src/editor.c lines 318-319); the 32-byte buffer never truncates a
32-bit int rendering. -/
def cursorPositionSeq (cy cx : Int) : List Char :=
  "\x1b[".data ++ (toString (cy + 1)).data ++ ";".data ++
    (toString (cx + 1)).data ++ "H".data

/-- `editorRefreshScreen` (src/editor.c lines 307-326): builds the whole
frame in a fresh append buffer; the buffer contents `.b` are what the
single `write` call emits. -/
def editorRefreshScreen (E : editorConfig) : abuf :=
  let ab := abAppend true ABUF_INIT "\x1b[?25l".data
  let ab := abAppend true ab "\x1b[H".data
  let ab := editorDrawRows E ab
  let ab := abAppend true ab (cursorPositionSeq E.cy E.cx)
  abAppend true ab "\x1b[?25h".data

/-- The `while (1) { editorRefreshScreen(); editorProcessKeyPress(); }`
loop of `main` (src/editor.c lines 346-349), driven by the list of decoded
key events.  Returns all bytes written to stdout and `some code` when the
process exits.  With no further events the loop draws a frame and then
blocks in `editorReadKey`. -/
def editorLoop (E : editorConfig) : List Int → List Char × Option Nat
  | [] => ((editorRefreshScreen E).b, none)
  | c :: rest =>
    let frame := (editorRefreshScreen E).b
    let r := editorProcessKeyPress E c
    match r.2.2 with
    | some code => (frame ++ r.2.1, some code)
    | none =>
      let t := editorLoop r.1 rest
      (frame ++ r.2.1 ++ t.1, t.2)

/-- `struct winsize` as used by `getWindowSize` (src/editor.c lines
201-207); `ws_row` and `ws_col` are unsigned shorts. -/
structure winsize where
  ws_row : Nat
  ws_col : Nat
deriving DecidableEq

/-- `getWindowSize` (src/editor.c lines 191-209).  `ioctlResult` is the
outcome of `ioctl(STDOUT_FILENO, TIOCGWINSZ, &w)`: `none` when the call
fails.  Returns `none` (C: `-1`) when the call fails or the terminal
reports zero columns, otherwise the reported rows and columns. -/
def getWindowSize (ioctlResult : Option winsize) : Option (Int × Int) :=
  match ioctlResult with
  | none => none
  | some w => if w.ws_col = 0 then none else some ((w.ws_row : Int), (w.ws_col : Int))

/-- `die` (src/editor.c lines 74-83): clears the screen and homes the
cursor on stdout, prints the diagnostic on stderr, exits with status 1. -/
def die (s : List Char) : List Char × List Char × Option Nat :=
  ("\x1b[2J".data ++ "\x1b[H".data, s, some 1)

/-- `initEditor` (src/editor.c lines 330-339): zero cursor, then the
window-size query; on failure it calls `die("getWindowSize")`. -/
def initEditor (ioctlResult : Option winsize) : Except (List Char) editorConfig :=
  match getWindowSize ioctlResult with
  | none => Except.error ("getWindowSize".data)
  | some rc => Except.ok ⟨0, 0, rc.1, rc.2, 0⟩

/-- `main` (src/editor.c lines 341-352) after raw mode is enabled: init,
then the render loop.  Result: bytes written to stdout, bytes written to
stderr, and the exit status (if the process exits). -/
def runMain (ioctlResult : Option winsize) (keys : List Int) : List Char × List Char × Option Nat :=
  match initEditor ioctlResult with
  | Except.error msg => die msg
  | Except.ok E =>
    let r := editorLoop E keys
    (r.1, [], r.2)

/-- Unfolding lemma: the `while (times--)` loop applies
`editorMoveCursor key` exactly `n` times, i.e. it is function iteration. -/
theorem repeatMoveCursor_eq_iterate (key : Int) (n : Nat) (E : editorConfig) :
    repeatMoveCursor key n E = (editorMoveCursor key)^[n] E := by
  induction n generalizing E with
  | zero => rfl
  | succ n ih =>
    rw [repeatMoveCursor, Function.iterate_succ_apply, ih]

/-- Claim C2: a single Move event changes the cursor by exactly one cell in
the requested direction unless it sits at the documented clamp bound, where
it is unchanged: MoveLeft stops at column 0, MoveRight at column
`cols - 1`, MoveUp at row 0, and MoveDown at row `cols - 1` (the downward
bound uses the column count, as in src/editor.c line 235). -/
theorem moveCursor_one_cell_clamped (E : editorConfig) :
    (E.cx ≠ 0 → editorMoveCursor MOVE_LEFT E = { E with cx := E.cx - 1 }) ∧
    (E.cx = 0 → editorMoveCursor MOVE_LEFT E = E) ∧
    (E.cx ≠ E.screencols - 1 → editorMoveCursor MOVE_RIGHT E = { E with cx := E.cx + 1 }) ∧
    (E.cx = E.screencols - 1 → editorMoveCursor MOVE_RIGHT E = E) ∧
    (E.cy ≠ 0 → editorMoveCursor MOVE_UP E = { E with cy := E.cy - 1 }) ∧
    (E.cy = 0 → editorMoveCursor MOVE_UP E = E) ∧
    (E.cy ≠ E.screencols - 1 → editorMoveCursor MOVE_DOWN E = { E with cy := E.cy + 1 }) ∧
    (E.cy = E.screencols - 1 → editorMoveCursor MOVE_DOWN E = E) := by
  refine ⟨?_, ?_, ?_, ?_, ?_, ?_, ?_, ?_⟩ <;> intro h <;>
    simp [editorMoveCursor, MOVE_LEFT, MOVE_RIGHT, MOVE_UP, MOVE_DOWN, h]

/-- Witness for C2: concrete moves away from and at the clamp bounds. -/
theorem moveCursor_one_cell_clamped_witness :
    editorMoveCursor MOVE_LEFT ⟨3, 4, 24, 80, 0⟩ = ⟨2, 4, 24, 80, 0⟩ ∧
    editorMoveCursor MOVE_DOWN ⟨5, 79, 24, 80, 0⟩ = ⟨5, 79, 24, 80, 0⟩ := by
  constructor
  · exact (moveCursor_one_cell_clamped ⟨3, 4, 24, 80, 0⟩).1 (by decide)
  · exact (moveCursor_one_cell_clamped ⟨5, 79, 24, 80, 0⟩).2.2.2.2.2.2.2 (by decide)

/-- Claim C3: the decoder maps ESC `[` `A` to one MoveUp consuming 3 bytes,
ESC `[` `5` `~` to one PageUp consuming 4 bytes, and a lone ESC followed by
a read timeout to one EscapeUnrecognized (returned as the escape byte 0x1b)
consuming 1 byte. -/
theorem readKey_decoding :
    editorReadKey [some 27, some 91, some 65] = some (MOVE_UP, 3) ∧
    editorReadKey [some 27, some 91, some 53, some 126] = some (PAGE_UP, 4) ∧
    editorReadKey [some 27, none] = some (27, 1) := by
  refine ⟨rfl, rfl, rfl⟩

/-- Claim C9: when the first byte is ESC and two further bytes arrive in
time but the first follow byte is not the CSI bracket, the decoder returns
EscapeUnrecognized having consumed all 3 bytes, and that result is the very
value `27 = 0x1b` that a literal escape byte would carry. -/
theorem readKey_nonCSI_swallows_two (b1 b2 : Int) (rest : List (Option Int)) (h : b1 ≠ 91) :
    editorReadKey (some 27 :: some b1 :: some b2 :: rest) = some (27, 3) := by
  simp [editorReadKey, skipTimeouts, read1, h]

/-- Witness for C9: ESC `O` `A` (an SS3-style sequence) decodes to the
escape byte with 3 bytes consumed. -/
theorem readKey_nonCSI_swallows_two_witness :
    editorReadKey [some 27, some 79, some 65] = some (27, 3) :=
  readKey_nonCSI_swallows_two 79 65 [] (by decide)

/-- Claim C10: when the allocation inside `abAppend` fails, the append is
silently dropped: the buffer keeps the same contents and the same length,
and no error is reported (the function just returns). -/
theorem abAppend_alloc_failure_noop (ab : abuf) (s : List Char) :
    abAppend false ab s = ab ∧
    (abAppend false ab s).b = ab.b ∧
    (abAppend false ab s).len = ab.len :=
  ⟨rfl, rfl, rfl⟩

/-- Claim C6: PageUp (resp. PageDown) applies the MoveUp (resp. MoveDown)
mutation exactly `screenrows` times, each application individually clamped;
in particular with 24 rows a single PageDown applies 24 downward moves. -/
theorem pageKeys_repeat_rows_times (E : editorConfig) :
    editorProcessKeyPress E PAGE_UP =
      ((editorMoveCursor MOVE_UP)^[E.screenrows.toNat] E, [], none) ∧
    editorProcessKeyPress E PAGE_DOWN =
      ((editorMoveCursor MOVE_DOWN)^[E.screenrows.toNat] E, [], none) ∧
    (E.screenrows = 24 →
      (editorProcessKeyPress E PAGE_DOWN).1 = (editorMoveCursor MOVE_DOWN)^[24] E) := by
  have h17 : CTRL_KEY 113 = (17 : Int) := by decide
  refine ⟨?_, ?_, ?_⟩
  · simp [editorProcessKeyPress, h17, PAGE_UP, PAGE_DOWN, repeatMoveCursor_eq_iterate]
  · simp [editorProcessKeyPress, h17, PAGE_UP, PAGE_DOWN, MOVE_UP, MOVE_DOWN,
      repeatMoveCursor_eq_iterate]
  · intro h
    simp [editorProcessKeyPress, h17, PAGE_UP, PAGE_DOWN, MOVE_UP, MOVE_DOWN,
      repeatMoveCursor_eq_iterate, h]

/-- Witness for C6: in a 24-row viewport one PageDown is 24 downward moves. -/
theorem pageKeys_repeat_rows_times_witness :
    (editorProcessKeyPress ⟨0, 0, 24, 80, 0⟩ PAGE_DOWN).1 =
      (editorMoveCursor MOVE_DOWN)^[24] ⟨0, 0, 24, 80, 0⟩ :=
  (pageKeys_repeat_rows_times ⟨0, 0, 24, 80, 0⟩).2.2 rfl

/-- Claim C5: on the quit chord (CTRL-q, byte 0x11) the loop writes exactly
the clear-screen sequence then the cursor-home sequence after the already
pending frame, exits with status 0, and draws no further frames whatever
input follows. -/
theorem quit_chord_clears_and_exits (E : editorConfig) (rest : List Int) :
    editorLoop E (CTRL_KEY 113 :: rest) =
      ((editorRefreshScreen E).b ++ ("\x1b[2J".data ++ "\x1b[H".data), some 0) := by
  simp [editorLoop, editorProcessKeyPress]

/-- Claim C1 fails on the code: in a 24-row, 80-column viewport the single
PageDown event applies 24 downward moves, none of which hits the
`screencols - 1 = 79` clamp, so the cursor row reaches 24 and leaves
`[0, rows-1] = [0, 23]`: the downward clamp compares against the column
count (src/editor.c line 235), not the row count. -/
theorem pagedown_breaks_row_bound :
    ((editorProcessKeyPress ⟨0, 0, 24, 80, 0⟩ PAGE_DOWN).1).cy = 24 ∧
    ¬ ((editorProcessKeyPress ⟨0, 0, 24, 80, 0⟩ PAGE_DOWN).1).cy ≤ 24 - 1 := by
  decide

/-- The padding the spec's banner-centering sentence claims is emitted
before the banner at width `cols` for a banner of length `L`: one
placeholder marker followed by `(cols - L) / 2 - 1` spaces. -/
def specBannerPad (cols L : Nat) : List Char :=
  '~' :: List.replicate ((cols - L) / 2 - 1) ' '

/-- Counterexample to claim C4: at cols = 80 a banner of length 79 gets
no marker and no padding at all (the computed padding is 0), not the
claimed one-marker prefix. -/
theorem banner_centering_counterexample :
    ¬ (editorBannerRow 80 (List.replicate 79 'a') =
        specBannerPad 80 79 ++ List.replicate 79 'a') := by
  decide

/-- Claim C4 amended: at cols = 80, a banner of length `L ≤ 78` (so the
computed padding `(80 - L) / 2` is at least 1) is preceded by exactly one
placeholder marker and `(80 - L) / 2 - 1` spaces; banners of length 79 or
80 are emitted bare with no marker or padding; a banner longer than the
width is truncated to exactly `cols` bytes. -/
theorem banner_centering_amended (banner : List Char) :
    (banner.length ≤ 78 →
      editorBannerRow 80 banner = specBannerPad 80 banner.length ++ banner) ∧
    (78 < banner.length → banner.length ≤ 80 →
      editorBannerRow 80 banner = banner) ∧
    (∀ cols : Nat, cols < banner.length →
      editorBannerRow cols banner = banner.take cols ∧
      (editorBannerRow cols banner).length = cols) := by
  refine ⟨?_, ?_, ?_⟩
  · intro h
    have hlen : ¬ banner.length > 80 := by omega
    have hpad : (80 - banner.length) / 2 ≠ 0 := by omega
    simp [editorBannerRow, specBannerPad, hlen, hpad]
  · intro h1 h2
    have hlen : ¬ banner.length > 80 := by omega
    have hpad : (80 - banner.length) / 2 = 0 := by omega
    simp [editorBannerRow, hlen, hpad]
  · intro cols hc
    have hlen : banner.length > cols := hc
    constructor
    · simp [editorBannerRow, hlen]
    · simp [editorBannerRow, hlen, List.length_take]
      omega

/-- Witness for the amended C4: the program's own 28-byte banner gets one
marker and 25 spaces, and at width 10 it is truncated to exactly 10 bytes. -/
theorem banner_centering_amended_witness :
    editorBannerRow 80 welcomeMessage = specBannerPad 80 welcomeMessage.length ++ welcomeMessage ∧
    editorBannerRow 10 welcomeMessage = welcomeMessage.take 10 ∧
    (editorBannerRow 10 welcomeMessage).length = 10 := by
  refine ⟨(banner_centering_amended welcomeMessage).1 (by decide),
    (banner_centering_amended welcomeMessage).2.2 10 (by decide)⟩

/-- Claim C7: `getWindowSize` fails exactly when the ioctl fails or the
terminal reports zero columns; on success it returns the reported rows and
columns; and on failure the program emits the diagnostic and exits with
status 1 having written nothing but the clear/home cleanup — it never
enters the render loop. -/
theorem windowSize_failure_is_fatal (r : Option winsize) :
    (getWindowSize r = none ↔ (r = none ∨ ∃ w, r = some w ∧ w.ws_col = 0)) ∧
    (∀ w : winsize, w.ws_col ≠ 0 →
      getWindowSize (some w) = some ((w.ws_row : Int), (w.ws_col : Int))) ∧
    (getWindowSize r = none → ∀ keys : List Int,
      runMain r keys = ("\x1b[2J".data ++ "\x1b[H".data, "getWindowSize".data, some 1)) := by
  refine ⟨?_, ?_, ?_⟩
  · cases r with
    | none => simp [getWindowSize]
    | some w =>
      by_cases h : w.ws_col = 0 <;> simp [getWindowSize, h]
  · intro w hw
    simp [getWindowSize, hw]
  · intro hfail keys
    simp [runMain, initEditor, hfail, die]

/-- Witness for C7: a failed ioctl aborts with status 1 and the
diagnostic, and a 24 by 80 report succeeds. -/
theorem windowSize_failure_is_fatal_witness :
    runMain none [] = ("\x1b[2J".data ++ "\x1b[H".data, "getWindowSize".data, some 1) ∧
    getWindowSize (some ⟨24, 80⟩) = some (24, 80) := by
  refine ⟨(windowSize_failure_is_fatal none).2.2 rfl [],
    (windowSize_failure_is_fatal (some ⟨24, 80⟩)).2.1 ⟨24, 80⟩ (by decide)⟩

/-- Claim C8: frame construction is deterministic in the editor state —
two states agreeing on cursor position and viewport size (whatever the
rest of the state, here the terminal-attribute snapshot) produce
byte-identical output buffers. -/
theorem refreshScreen_deterministic (E1 E2 : editorConfig)
    (h1 : E1.cx = E2.cx) (h2 : E1.cy = E2.cy)
    (h3 : E1.screenrows = E2.screenrows) (h4 : E1.screencols = E2.screencols) :
    editorRefreshScreen E1 = editorRefreshScreen E2 := by
  cases E1
  cases E2
  simp only at h1 h2 h3 h4
  subst h1 h2 h3 h4
  rfl

/-- Witness for C8: two states differing only in the terminal snapshot
render the same frame. -/
theorem refreshScreen_deterministic_witness :
    editorRefreshScreen ⟨0, 0, 2, 10, 0⟩ = editorRefreshScreen ⟨0, 0, 2, 10, 99⟩ :=
  refreshScreen_deterministic ⟨0, 0, 2, 10, 0⟩ ⟨0, 0, 2, 10, 99⟩ rfl rfl rfl rfl
